import Mathlib

/-!
Verification of `my-tools/ai-file-renamer/rename-pdf.py`.

The Python source is shallowly embedded: pure string processing becomes Lean
functions on `String`/`List Char`; the filesystem becomes an explicit set of
paths threaded through the pipeline; the external collaborators (pdftotext,
ocrmypdf, the Gemini HTTP endpoint) become explicit environment values
describing the outcome of each call; a Python exception that escapes a function
becomes an `Except.error`.
-/

/-- The set of characters that Python `str.strip()` removes (characters where
`str.isspace()` is true): 0x09-0x0D, 0x1C-0x20, NEL, NBSP, and the Unicode
space separators. -/
def isPySpace (c : Char) : Bool :=
  let n := c.toNat
  (9 ≤ n && n ≤ 13) || (28 ≤ n && n ≤ 32) || n = 0x85 || n = 0xA0 ||
  n = 0x1680 || (0x2000 ≤ n && n ≤ 0x200A) || n = 0x2028 || n = 0x2029 ||
  n = 0x202F || n = 0x205F || n = 0x3000

/-- Characters matched by the regex `[<>:"/\\|?*\x00-\x1F]` in
`sanitize_filename`. -/
def invalidChar (c : Char) : Bool :=
  c = '<' || c = '>' || c = ':' || c = '"' || c = '/' || c = '\\' ||
  c = '|' || c = '?' || c = '*' || c.toNat ≤ 31

/-- Python `title.strip()` on the character list: drop Python whitespace from
both ends. -/
def pyStripList (l : List Char) : List Char :=
  ((l.dropWhile isPySpace).reverse.dropWhile isPySpace).reverse

/-- Python `str.strip()`. -/
def pyStrip (s : String) : String :=
  ⟨pyStripList s.data⟩

/-- One character of the first regex substitution of `sanitize_filename`:
each invalid character becomes an underscore. -/
def replaceInvalid (c : Char) : Char :=
  if invalidChar c then '_' else c

/-- Collapses every run of underscores to a single underscore (the second
regex substitution of `sanitize_filename`). -/
def collapseUnderscores : List Char → List Char
  | [] => []
  | [c] => [c]
  | c1 :: c2 :: rest =>
    if c1 = '_' && c2 = '_' then collapseUnderscores (c2 :: rest)
    else c1 :: collapseUnderscores (c2 :: rest)

/-- Python `s.strip('_')`: drop underscores from both ends. -/
def stripUnderscoresList (l : List Char) : List Char :=
  ((l.dropWhile (· = '_')).reverse.dropWhile (· = '_')).reverse

/-- Steps 2-4 of `sanitize_filename` on the stripped title: replace the
invalid characters with underscores, collapse runs of underscores, strip
underscores from both ends, truncate to 150 characters. -/
def sanitizeCore (t : List Char) : List Char :=
  (stripUnderscoresList (collapseUnderscores (t.map replaceInvalid))).take 150

/-- Embeds `sanitize_filename` from rename-pdf.py on character lists: strip
whitespace; empty input yields the placeholder `"untitled.pdf"`; otherwise
run the replacement, underscore-collapsing, underscore-stripping and
truncation steps; an empty result again yields the placeholder. -/
def sanitizeList (l : List Char) : List Char :=
  if (pyStripList l).isEmpty then "untitled.pdf".data
  else if (sanitizeCore (pyStripList l)).isEmpty then "untitled.pdf".data
  else sanitizeCore (pyStripList l)

/-- Embeds `sanitize_filename` from rename-pdf.py. -/
def sanitize_filename (s : String) : String :=
  ⟨sanitizeList s.data⟩

example : sanitize_filename "" = "untitled.pdf" := by decide
example : sanitize_filename "a/b" = "a_b" := by decide
example : sanitize_filename "a _" = "a " := by decide
example : sanitize_filename "a " = "a" := by decide
example : sanitize_filename "___" = "untitled.pdf" := by decide

/-! ## Text extraction (`extract_text_from_first_page`) -/

/-- Outcome of one `subprocess.run(["pdftotext", ...])` call: a zero exit with
the captured stdout, a nonzero exit, a `TimeoutExpired`, or a
`FileNotFoundError` for a missing binary. -/
inductive SubprocResult where
  | ok (stdout : String)
  | exitFailure
  | subprocTimeout
  | notFound
deriving DecidableEq

/-- Outcome of the `ocrmypdf.ocr` call: success or an `ExitCodeError`. -/
inductive OcrResult where
  | ok
  | exitCodeError
deriving DecidableEq

/-- Behaviour of the external collaborators for one document: the structural
`pdftotext` call on the original file, the `ocrmypdf` call, and the
`pdftotext` call on the OCR output. -/
structure ExtractEnv where
  structural : SubprocResult
  ocr : OcrResult
  structuralAfterOcr : SubprocResult
deriving DecidableEq

/-- The OCR fallback block of `extract_text_from_first_page`: run `ocrmypdf`,
then `pdftotext` on its output; every handled failure yields `""`.  The
boolean records that the OCR path was invoked. -/
def ocrFallback (env : ExtractEnv) : String × Bool :=
  match env.ocr with
  | .ok =>
    match env.structuralAfterOcr with
    | .ok out => (pyStrip out, true)
    | _ => ("", true)
  | .exitCodeError => ("", true)

/-- Embeds `extract_text_from_first_page` from rename-pdf.py: try `pdftotext`
on page
1; if it exits 0 and the stripped text has at least 50 characters, return it
without OCR; a missing `pdftotext` binary returns `""` immediately; any other
outcome falls back to OCR.  The boolean records whether OCR was invoked. -/
def extract_text_from_first_page (env : ExtractEnv) : String × Bool :=
  match env.structural with
  | .ok out =>
    let text := pyStrip out
    if 50 ≤ text.length then (text, false) else ocrFallback env
  | .notFound => ("", false)
  | _ => ocrFallback env

/-! ## Title generation (`generate_title_with_gemini`) -/

/-- A JSON value, as produced by `response.json()`. -/
inductive JsonVal where
  | str (s : String)
  | arr (elems : List JsonVal)
  | obj (fields : List (String × JsonVal))
  | null

/-- Dictionary lookup `d[key]`; `none` models the `KeyError`/`TypeError`
raised on a missing key or a non-dict value (caught by the surrounding
`except Exception`). -/
def jField : JsonVal → String → Option JsonVal
  | .obj fields, key => lookupField fields key
  | _, _ => none
where
  lookupField : List (String × JsonVal) → String → Option JsonVal
    | [], _ => none
    | (k, v) :: rest, key => if k = key then some v else lookupField rest key

/-- List indexing `l[i]`; `none` models the `IndexError`/`TypeError` raised on
an out-of-range index or a non-list value. -/
def jIndex : JsonVal → Nat → Option JsonVal
  | .arr elems, i => elems.get? i
  | _, _ => none

/-- View as a string; `none` models the `AttributeError` raised by `.strip()`
on a non-string. -/
def jStr : JsonVal → Option String
  | .str s => some s
  | _ => none

/-- The response-body handling of `generate_title_with_gemini`: if the key
`candidates` is present and nonempty, return the stripped text at
`candidates[0].content.parts[0].text`; every missing or ill-typed field, like
an absent or empty `candidates`, yields `""` (the code returns `""` directly
or via `except Exception`). -/
def parseGeminiBody (d : JsonVal) : String :=
  match jField d "candidates" with
  | some (.arr (c0 :: _)) =>
    (do
      let content ← jField c0 "content"
      let parts ← jField content "parts"
      let p0 ← jIndex parts 0
      let t ← jField p0 "text"
      let s ← jStr t
      pure (pyStrip s)).getD ""
  | _ => ""

/-- Behaviour of one `requests.post` call to the Gemini endpoint: a
network-transport failure (`requests.RequestException`) or a response with a
status code and a body (`none` models a body `response.json()` cannot
parse). -/
inductive AttemptOutcome where
  | transportError
  | response (status : Nat) (body : Option JsonVal)

/-- One undecorated run of `generate_title_with_gemini`: a transport error
escapes as an exception (to the retry decorator); a non-200 status returns
`""`; otherwise the body is parsed, any parse failure returning `""`. -/
def geminiCall : AttemptOutcome → Except Unit String
  | .transportError => .error ()
  | .response status body =>
    if status ≠ 200 then .ok ""
    else .ok (match body with
      | none => ""
      | some d => parseGeminiBody d)

/-- Result of the `tenacity`-decorated call: a returned string, or the
`RetryError` tenacity raises once `stop_after_attempt(3)` is reached. -/
inductive GenResult where
  | returned (s : String)
  | retryError
deriving DecidableEq

/-- Run up to `remaining` further attempts, `made` attempts having already
been made; returns the result and the total number of attempts. -/
def runAttempts (attempts : Nat → AttemptOutcome) : Nat → Nat → GenResult × Nat
  | 0, made => (.retryError, made)
  | remaining + 1, made =>
    match geminiCall (attempts made) with
    | .ok s => (.returned s, made + 1)
    | .error _ => runAttempts attempts remaining (made + 1)

/-- Embeds `generate_title_with_gemini` under its decorator
`@retry(stop=stop_after_attempt(3), wait=wait_exponential(multiplier=1,
min=4, max=10), retry=retry_if_exception_type(requests.RequestException))`:
the i-th call behaves as `attempts i`. -/
def generate_title_with_gemini (attempts : Nat → AttemptOutcome) :
    GenResult × Nat :=
  runAttempts attempts 3 0

/-- The wait in time-units computed by the tenacity configuration
`wait_exponential(multiplier=1, min=4, max=10)` after the attempt numbered
`n` (1-based) fails: `max(min_, min(multiplier * 2^n, max_))`. -/
def wait_exponential_seconds (n : Nat) : Nat :=
  max 4 (min (2 ^ n) 10)

example : generate_title_with_gemini (fun _ => .transportError) =
    (.retryError, 3) := by decide
example : generate_title_with_gemini (fun _ => .response 500 none) =
    (.returned "", 1) := by decide
example : wait_exponential_seconds 1 = 4 ∧ wait_exponential_seconds 2 = 4 ∧
    wait_exponential_seconds 3 = 8 := by decide

/-! ## The rename pipeline (`rename_pdf`) -/

/-- A filesystem path, split as `os.path.dirname`/`os.path.basename` split it:
the containing directory and the file name.  `os.path.join(dir, base)`
recombines the two components. -/
structure DocPath where
  dir : String
  base : String
deriving DecidableEq

/-- The filesystem, as the set of existing paths.  File contents are never
read or written by `rename_pdf`; `os.rename` only moves a path. -/
structure FS where
  paths : List DocPath
deriving DecidableEq

/-- Model of `os.path.exists`. -/
def FS.pathExists (fs : FS) (p : DocPath) : Bool :=
  fs.paths.contains p

/-- Model of `os.rename(src, dst)`: the source path disappears, the
destination appears. -/
def FS.renamePath (fs : FS) (src dst : DocPath) : FS :=
  ⟨dst :: fs.paths.erase src⟩

/-- The observable outcome of one `rename_pdf` call, mirroring its log lines
and effect. -/
inductive RenameOutcome where
  | skippedNoText
  | skippedNoTitle
  | dryRunReport (title : String)
  | renamed (newPath : DocPath)
  | skippedExists (name : String)
deriving DecidableEq

/-- Embeds `rename_pdf` from rename-pdf.py: extract text (empty → warn and return);
generate a title (empty → warn and return; a tenacity `RetryError` escapes as
an exception); on `dry_run` log the raw title and return **before**
sanitization; otherwise build `sanitize_filename(title) + ".pdf"` in the
directory of the document, skip if that path exists, else rename. -/
def rename_pdf (env : ExtractEnv) (attempts : Nat → AttemptOutcome)
    (pdf_path : DocPath) (dry_run : Bool) (fs : FS) :
    Except Unit (RenameOutcome × FS) :=
  let pdf_text := (extract_text_from_first_page env).1
  if pdf_text = "" then .ok (.skippedNoText, fs)
  else
    match (generate_title_with_gemini attempts).1 with
    | .retryError => .error ()
    | .returned new_title =>
      if new_title = "" then .ok (.skippedNoTitle, fs)
      else if dry_run then .ok (.dryRunReport new_title, fs)
      else
        let sanitized_title := sanitize_filename new_title ++ ".pdf"
        let new_path : DocPath := ⟨pdf_path.dir, sanitized_title⟩
        if fs.pathExists new_path then .ok (.skippedExists sanitized_title, fs)
        else .ok (.renamed new_path, fs.renamePath pdf_path new_path)

/-! ## The directory driver (`rename_pdfs_in_directory`) -/

/-- A Python value a name can be bound to: a string, or a function object
(such as the `filename` function imported by `from fileinput import
filename`). -/
inductive PyBinding where
  | strVal (s : String)
  | functionVal (qualifiedName : String)

/-- The value the free name `filename` has inside
`rename_pdfs_in_directory`: the source contains no `for filename in ...`
loop, so the name resolves to the module-level import
`from fileinput import filename`, a function object. -/
def module_filename : PyBinding :=
  .functionVal "fileinput.filename"

/-- Model of `x.lower()`: lower-casing a string succeeds; on a function
object it raises `AttributeError`. -/
def pyLower : PyBinding → Except String String
  | .strVal s => .ok s.toLower
  | .functionVal _ =>
    .error "AttributeError: function object has no attribute lower"

/-- Embeds `rename_pdfs_in_directory` from rename-pdf.py.  The body has no
loop: its
first statement evaluates `filename.lower()` where `filename` is
`module_filename`, outside any `try`, so the `AttributeError` escapes to the
caller.  Were `filename` a string, at most that single name would be
examined (the `try`/`except` around `rename_pdf` logs a failure and falls
through).  Returns the final filesystem and the processed outcomes. -/
def rename_pdfs_in_directory (env : ExtractEnv)
    (attempts : Nat → AttemptOutcome) (directory_path : String)
    (dry_run : Bool) (fs : FS) : Except String (FS × List RenameOutcome) :=
  match pyLower module_filename with
  | .error e => .error e
  | .ok lowered =>
    if lowered.endsWith ".pdf" then
      match rename_pdf env attempts ⟨directory_path, lowered⟩ dry_run fs with
      | .ok (outcome, fs2) => .ok (fs2, [outcome])
      | .error _ => .ok (fs, [])
    else .ok (fs, [])

/-! ## Helper lemmas on the sanitizer -/

/-- Replacing an invalid character yields a character that is not invalid. -/
theorem invalidChar_replaceInvalid (c : Char) :
    invalidChar (replaceInvalid c) = false := by
  unfold replaceInvalid
  cases h : invalidChar c
  · simpa using h
  · rw [if_pos rfl]
    decide

/-- Every character of the underscore-collapsed list occurs in the input. -/
theorem mem_collapseUnderscores {c : Char} :
    ∀ l : List Char, c ∈ collapseUnderscores l → c ∈ l
  | [] => by simp [collapseUnderscores]
  | [a] => by simp [collapseUnderscores]
  | a :: b :: rest => by
    intro h
    simp only [collapseUnderscores] at h
    split at h
    · exact List.mem_cons_of_mem a (mem_collapseUnderscores (b :: rest) h)
    · rcases List.mem_cons.mp h with h1 | h2
      · exact h1 ▸ List.mem_cons_self a _
      · exact List.mem_cons_of_mem a (mem_collapseUnderscores (b :: rest) h2)

/-- Every character of the underscore-stripped list occurs in the input. -/
theorem mem_stripUnderscoresList {c : Char} {l : List Char}
    (h : c ∈ stripUnderscoresList l) : c ∈ l := by
  unfold stripUnderscoresList at h
  rw [List.mem_reverse] at h
  have h1 : c ∈ (l.dropWhile (· = '_')).reverse :=
    (List.dropWhile_sublist _).subset h
  rw [List.mem_reverse] at h1
  exact (List.dropWhile_sublist _).subset h1

/-- No character of `sanitizeCore t` is invalid. -/
theorem sanitizeCore_not_invalid {c : Char} {t : List Char}
    (h : c ∈ sanitizeCore t) : invalidChar c = false := by
  unfold sanitizeCore at h
  have h1 := (List.take_sublist _ _).subset h
  have h2 := mem_stripUnderscoresList h1
  have h3 := mem_collapseUnderscores _ h2
  rcases List.mem_map.mp h3 with ⟨a, _, rfl⟩
  exact invalidChar_replaceInvalid a

/-- The truncation step bounds `sanitizeCore` by 150 characters. -/
theorem sanitizeCore_length (t : List Char) :
    (sanitizeCore t).length ≤ 150 := by
  unfold sanitizeCore
  exact List.length_take_le _ _

/-- The sanitized list is nonempty, at most 150 characters, and free of
invalid characters. -/
theorem sanitizeList_spec (l : List Char) :
    sanitizeList l ≠ [] ∧ (sanitizeList l).length ≤ 150 ∧
    (sanitizeList l).all (fun c => !invalidChar c) = true := by
  unfold sanitizeList
  split
  · exact ⟨by decide, by decide, by decide⟩
  · split
    · exact ⟨by decide, by decide, by decide⟩
    · rename_i h1 h2
      refine ⟨?_, sanitizeCore_length _, ?_⟩
      · intro hc
        rw [hc] at h2
        simp at h2
      · rw [List.all_eq_true]
        intro c hc
        simp [sanitizeCore_not_invalid hc]

/-! ## Claims about the sanitizer (C4, C5) -/

/-- C4 (amended): for every input string, `sanitize_filename` returns a
non-empty string of at most 150 characters containing none of the forbidden
characters; its idempotency, however, fails (see the counterexample). -/
theorem sanitize_filename_total (s : String) :
    sanitize_filename s ≠ "" ∧ (sanitize_filename s).length ≤ 150 ∧
    (sanitize_filename s).data.all (fun c => !invalidChar c) = true := by
  obtain ⟨h1, h2, h3⟩ := sanitizeList_spec s.data
  refine ⟨?_, h2, h3⟩
  intro hc
  apply h1
  simpa using congrArg String.data hc

/-- C4 counterexample: `sanitize_filename` is not idempotent.  On `"a _"` the
underscore-stripping step exposes a trailing space, so a second application
strips further: `sanitize_filename "a _" = "a "` but
`sanitize_filename "a " = "a"`. -/
theorem sanitize_filename_not_idempotent :
    sanitize_filename (sanitize_filename "a _") ≠ sanitize_filename "a _" := by
  decide

/-- C5 (amended): an input that is empty after trimming, and an input whose
replacement, underscore-collapsing, underscore-stripping and truncation steps
yield an empty string, both sanitize to exactly the placeholder
`"untitled.pdf"`. -/
theorem sanitize_filename_placeholder (s : String) :
    (pyStripList s.data = [] → sanitize_filename s = "untitled.pdf") ∧
    (sanitizeCore (pyStripList s.data) = [] →
      sanitize_filename s = "untitled.pdf") := by
  constructor
  · intro h
    unfold sanitize_filename sanitizeList
    rw [h]
    rfl
  · intro h
    unfold sanitize_filename sanitizeList
    by_cases h0 : (pyStripList s.data).isEmpty
    · rw [if_pos h0]
    · rw [if_neg h0, h]
      rfl

/-- C5 witness: the all-whitespace input `" "` and the input `"_<_"` (whose
sanitization steps yield the empty string) both map to the placeholder. -/
theorem sanitize_filename_placeholder_witness :
    sanitize_filename " " = "untitled.pdf" ∧
    sanitize_filename "_<_" = "untitled.pdf" :=
  ⟨(sanitize_filename_placeholder " ").1 (by decide),
   (sanitize_filename_placeholder "_<_").2 (by decide)⟩

/-- C5 counterexample: the placeholder the code returns is `"untitled.pdf"`,
not the `"untitled"` the claim states. -/
theorem sanitize_filename_placeholder_counterexample :
    sanitize_filename "" = "untitled.pdf" ∧ sanitize_filename "" ≠ "untitled" := by
  decide

/-! ## Claims about extraction (C8) -/

/-- Whatever the collaborators do, the OCR fallback block marks OCR as
invoked. -/
theorem ocrFallback_snd (env : ExtractEnv) : (ocrFallback env).2 = true := by
  unfold ocrFallback
  cases env.ocr
  · cases env.structuralAfterOcr <;> rfl
  · rfl

/-- C8: when structural extraction yields at least 50 characters the text is
returned and OCR is never invoked; when it yields fewer than 50 characters
the OCR path is invoked (and only afterwards can a title be requested). -/
theorem extract_structural_fallback (env : ExtractEnv) (out : String)
    (h : env.structural = .ok out) :
    (50 ≤ (pyStrip out).length →
      extract_text_from_first_page env = (pyStrip out, false)) ∧
    ((pyStrip out).length < 50 →
      (extract_text_from_first_page env).2 = true) := by
  constructor
  · intro hlen
    unfold extract_text_from_first_page
    rw [h]
    simp [hlen]
  · intro hlen
    have h2 : ¬ 50 ≤ (pyStrip out).length := Nat.not_le.mpr hlen
    unfold extract_text_from_first_page
    rw [h]
    simp [h2, ocrFallback_snd]

/-- A 50-character stdout for the structural `pdftotext` call. -/
def longStdout : String :=
  String.mk (List.replicate 50 'a')

/-- An environment whose structural extraction succeeds with 50 characters. -/
def envStructuralLong : ExtractEnv :=
  ⟨.ok longStdout, .ok, .ok "after-ocr"⟩

/-- C8 witness: on a concrete 50-character structural extraction the stripped
text is returned and OCR is not invoked. -/
theorem extract_structural_fallback_witness :
    extract_text_from_first_page envStructuralLong = (pyStrip longStdout, false) :=
  (extract_structural_fallback envStructuralLong longStdout rfl).1 (by decide)

/-! ## Claims about title generation (C3, C9) -/

/-- When the first call returns normally, the decorated function stops after
exactly one attempt with that value. -/
theorem runAttempts_first_ok {attempts : Nat → AttemptOutcome} {s : String}
    (h : geminiCall (attempts 0) = .ok s) :
    generate_title_with_gemini attempts = (.returned s, 1) := by
  unfold generate_title_with_gemini runAttempts
  rw [h]

/-- C3 (amended): three consecutive transport errors yield exactly 3 attempts
and then a tenacity `RetryError` escapes the generator (to be caught, if at
all, by the caller); the waits between the attempts are 4 and 4 time-units
(exponential, floored at 4 and capped at 10). -/
theorem generate_retry_exhaustion (attempts : Nat → AttemptOutcome)
    (h : ∀ i, i < 3 → attempts i = .transportError) :
    generate_title_with_gemini attempts = (.retryError, 3) ∧
    wait_exponential_seconds 1 = 4 ∧ wait_exponential_seconds 2 = 4 := by
  refine ⟨?_, rfl, rfl⟩
  have h0 := h 0 (by norm_num)
  have h1 := h 1 (by norm_num)
  have h2 := h 2 (by norm_num)
  unfold generate_title_with_gemini
  unfold runAttempts
  rw [h0]
  unfold runAttempts
  rw [h1]
  unfold runAttempts
  rw [h2]
  rfl

/-- C3 witness: the all-transport-error behaviour gives exactly 3 attempts
and a `RetryError`. -/
theorem generate_retry_exhaustion_witness :
    generate_title_with_gemini (fun _ => .transportError) = (.retryError, 3) ∧
    wait_exponential_seconds 1 = 4 ∧ wait_exponential_seconds 2 = 4 :=
  generate_retry_exhaustion (fun _ => .transportError) (fun _ _ => rfl)

/-- C3 counterexample: after three transport errors the generator does not
return a `NoTitle` outcome (the empty string) to the caller; the failure
escapes as a `RetryError`. -/
theorem generate_retry_counterexample :
    (generate_title_with_gemini (fun _ => .transportError)).1 ≠
      GenResult.returned "" ∧
    generate_title_with_gemini (fun _ => .transportError) =
      (.retryError, 3) := by
  decide

/-- C9: a non-success status code is not retried and does not raise — the
generator returns after one attempt with `""` (`NoTitle`); a response body
that is unparseable, that lacks the `candidates` field, or whose first
candidate lacks the `content` field likewise yields `""` after one
attempt. -/
theorem generate_nonretryable_failures (attempts : Nat → AttemptOutcome)
    (status : Nat) (body : Option JsonVal) (d : JsonVal) (c0 : JsonVal)
    (h : attempts 0 = .response status body) :
    (status ≠ 200 →
      generate_title_with_gemini attempts = (.returned "", 1)) ∧
    (body = none →
      generate_title_with_gemini attempts = (.returned "", 1)) ∧
    (body = some d → jField d "candidates" = none →
      generate_title_with_gemini attempts = (.returned "", 1)) ∧
    (body = some d → jField d "candidates" = some (.arr [c0]) →
      jField c0 "content" = none →
      generate_title_with_gemini attempts = (.returned "", 1)) := by
  refine ⟨?_, ?_, ?_, ?_⟩
  · intro hs
    apply runAttempts_first_ok
    rw [h]
    unfold geminiCall
    simp [hs]
  · intro hb
    apply runAttempts_first_ok
    rw [h, hb]
    simp only [geminiCall]
    split <;> rfl
  · intro hb hcand
    apply runAttempts_first_ok
    rw [h, hb]
    simp only [geminiCall]
    split
    · rfl
    · show Except.ok (parseGeminiBody d) = Except.ok ""
      unfold parseGeminiBody
      rw [hcand]
  · intro hb hcand hcontent
    apply runAttempts_first_ok
    rw [h, hb]
    simp only [geminiCall]
    split
    · rfl
    · show Except.ok (parseGeminiBody d) = Except.ok ""
      unfold parseGeminiBody
      rw [hcand]
      simp [hcontent]

/-- C9 witness: a concrete 404 response yields `""` after exactly one
attempt, with no retry and no exception. -/
theorem generate_nonretryable_failures_witness :
    generate_title_with_gemini (fun _ => .response 404 (some (.obj []))) =
      (.returned "", 1) :=
  (generate_nonretryable_failures (fun _ => .response 404 (some (.obj [])))
    404 (some (.obj [])) (.obj []) .null rfl).1 (by decide)

/-! ## Claims about the rename pipeline (C2, C6, C7, C10) and driver (C1) -/

/-- A well-formed Gemini response body whose generated text is `s`. -/
def bodyWithText (s : String) : JsonVal :=
  .obj [("candidates", .arr [.obj [("content",
    .obj [("parts", .arr [.obj [("text", .str s)]])])]])]

/-- A generation service that always answers 200 with the text `s`. -/
def attemptsTitle (s : String) : Nat → AttemptOutcome :=
  fun _ => .response 200 (some (bodyWithText s))

example : generate_title_with_gemini (attemptsTitle "T") =
    (.returned "T", 1) := by decide

/-- C7: the destination is composed as `sanitize_filename(title) + ".pdf"`
inside the directory of the document; when a file already exists there the
pipeline returns `SkippedExists` and the filesystem is unchanged (neither
source nor destination is touched); otherwise the source is renamed to
exactly that destination. -/
theorem rename_pdf_no_clobber (env : ExtractEnv)
    (attempts : Nat → AttemptOutcome) (pdf_path : DocPath) (fs : FS)
    (title : String)
    (htext : (extract_text_from_first_page env).1 ≠ "")
    (hgen : (generate_title_with_gemini attempts).1 = .returned title)
    (htitle : title ≠ "") :
    (fs.pathExists ⟨pdf_path.dir, sanitize_filename title ++ ".pdf"⟩ = true →
      rename_pdf env attempts pdf_path false fs =
        .ok (.skippedExists (sanitize_filename title ++ ".pdf"), fs)) ∧
    (fs.pathExists ⟨pdf_path.dir, sanitize_filename title ++ ".pdf"⟩ = false →
      rename_pdf env attempts pdf_path false fs =
        .ok (.renamed ⟨pdf_path.dir, sanitize_filename title ++ ".pdf"⟩,
          fs.renamePath pdf_path
            ⟨pdf_path.dir, sanitize_filename title ++ ".pdf"⟩)) := by
  constructor <;> intro hex <;>
    simp [rename_pdf, htext, hgen, htitle, hex]

/-- The filesystem used by the C7 witness: the source document and an
already-occupied destination. -/
def fsC7 : FS :=
  ⟨[⟨"docs", "x.pdf"⟩, ⟨"docs", "T.pdf"⟩]⟩

/-- C7 witness: with destination `docs/T.pdf` occupied, the concrete run
skips and leaves the filesystem unchanged. -/
theorem rename_pdf_no_clobber_witness :
    rename_pdf envStructuralLong (attemptsTitle "T") ⟨"docs", "x.pdf"⟩ false
      fsC7 = .ok (.skippedExists "T.pdf", fsC7) :=
  (rename_pdf_no_clobber envStructuralLong (attemptsTitle "T")
    ⟨"docs", "x.pdf"⟩ fsC7 "T" (by decide) (by decide) (by decide)).1
    (by decide)

/-- C10: a document already named `sanitize_filename(title) + ".pdf"` is its
own destination, so the existence check sees the source itself, the skip
branch is taken, no filesystem operation happens, and the outcome is not
`Renamed`. -/
theorem rename_pdf_already_named (env : ExtractEnv)
    (attempts : Nat → AttemptOutcome) (d : String) (fs : FS) (title : String)
    (htext : (extract_text_from_first_page env).1 ≠ "")
    (hgen : (generate_title_with_gemini attempts).1 = .returned title)
    (htitle : title ≠ "")
    (hsrc : fs.pathExists ⟨d, sanitize_filename title ++ ".pdf"⟩ = true) :
    rename_pdf env attempts ⟨d, sanitize_filename title ++ ".pdf"⟩ false fs =
      .ok (.skippedExists (sanitize_filename title ++ ".pdf"), fs) := by
  simp [rename_pdf, htext, hgen, htitle, hsrc]

/-- C10 witness: a file already named `docs/T.pdf` (its own sanitized
destination) is skipped, not renamed, and the filesystem is unchanged. -/
theorem rename_pdf_already_named_witness :
    rename_pdf envStructuralLong (attemptsTitle "T") ⟨"docs", "T.pdf"⟩ false
      ⟨[⟨"docs", "T.pdf"⟩]⟩ =
      .ok (.skippedExists "T.pdf", ⟨[⟨"docs", "T.pdf"⟩]⟩) :=
  rename_pdf_already_named envStructuralLong (attemptsTitle "T") "docs"
    ⟨[⟨"docs", "T.pdf"⟩]⟩ "T" (by decide) (by decide) (by decide) (by decide)

/-- C6 (amended): with `dry_run` set and a valid title, the pipeline runs
extraction and title generation, reports the raw generated title, and leaves
the filesystem unchanged; sanitization and the destination-path computation
are skipped, so the reported value is not the sanitized destination. -/
theorem rename_pdf_dry_run (env : ExtractEnv)
    (attempts : Nat → AttemptOutcome) (pdf_path : DocPath) (fs : FS)
    (title : String)
    (htext : (extract_text_from_first_page env).1 ≠ "")
    (hgen : (generate_title_with_gemini attempts).1 = .returned title)
    (htitle : title ≠ "") :
    rename_pdf env attempts pdf_path true fs =
      .ok (.dryRunReport title, fs) := by
  simp [rename_pdf, htext, hgen, htitle]

/-- C6 witness: a concrete dry run leaves the one-file filesystem unchanged
and reports the raw title. -/
theorem rename_pdf_dry_run_witness :
    rename_pdf envStructuralLong (attemptsTitle "T") ⟨"docs", "x.pdf"⟩ true
      ⟨[⟨"docs", "x.pdf"⟩]⟩ =
      .ok (.dryRunReport "T", ⟨[⟨"docs", "x.pdf"⟩]⟩) :=
  rename_pdf_dry_run envStructuralLong (attemptsTitle "T") ⟨"docs", "x.pdf"⟩
    ⟨[⟨"docs", "x.pdf"⟩]⟩ "T" (by decide) (by decide) (by decide)

/-- C6 counterexample: on the title `"a/b"` the dry run reports the raw title
`"a/b"`, which is not the computed sanitized destination
`sanitize_filename "a/b" + ".pdf" = "a_b.pdf"`; sanitization is skipped in
dry-run mode. -/
theorem rename_pdf_dry_run_counterexample :
    rename_pdf envStructuralLong (attemptsTitle "a/b") ⟨"docs", "x.pdf"⟩ true
      ⟨[⟨"docs", "x.pdf"⟩]⟩ =
      .ok (.dryRunReport "a/b", ⟨[⟨"docs", "x.pdf"⟩]⟩) ∧
    "a/b" ≠ sanitize_filename "a/b" ++ ".pdf" ∧
    sanitize_filename "a/b" ++ ".pdf" = "a_b.pdf" :=
  ⟨rfl, by decide, by decide⟩

/-- C2 (code bug): a generation response whose text is exactly
`Insufficient-Content` is returned verbatim by the generator, passes the
emptiness check of `rename_pdf`, and the document is renamed to the
sanitized sentinel `Insufficient-Content.pdf` — not skipped as
`SkippedNoTitle`. -/
theorem insufficient_content_is_renamed :
    generate_title_with_gemini (attemptsTitle "Insufficient-Content") =
      (.returned "Insufficient-Content", 1) ∧
    sanitize_filename "Insufficient-Content" = "Insufficient-Content" ∧
    rename_pdf envStructuralLong (attemptsTitle "Insufficient-Content")
      ⟨"docs", "scan.pdf"⟩ false ⟨[⟨"docs", "scan.pdf"⟩]⟩ =
      .ok (.renamed ⟨"docs", "Insufficient-Content.pdf"⟩,
        ⟨[⟨"docs", "Insufficient-Content.pdf"⟩]⟩) :=
  ⟨rfl, rfl, rfl⟩

/-- C1 (code bug): every call to `rename_pdfs_in_directory` raises
`AttributeError` before examining a single file — the body has no loop, the
name `filename` is the imported `fileinput.filename` function, and the
failing `.lower()` call sits outside the per-document `try` block.  No
document is ever processed and no per-document failure isolation happens. -/
theorem rename_pdfs_in_directory_always_raises (env : ExtractEnv)
    (attempts : Nat → AttemptOutcome) (directory_path : String)
    (dry_run : Bool) (fs : FS) :
    rename_pdfs_in_directory env attempts directory_path dry_run fs =
      .error "AttributeError: function object has no attribute lower" :=
  rfl
